import Mathlib

/-!
Verification of the intervueBot adaptive interview engine.

The definitions below are a shallow embedding of the Python source of the
repository (backend/src/intervuebot): the schema types, the adaptive agent's
difficulty controller and evaluation pipeline, the interview endpoints'
session state machine, the report generator, and the interview sequence
planner.  Python floats are modelled by rationals; Python `int(x)` on a
nonnegative float is modelled by the integer floor.  Free-form `Dict[str, Any]`
fields and timestamps that no theorem depends on are not modelled.
-/

namespace IntervueBot

/-- Difficulty level enumeration from `schemas/interview.py` (easy, medium, hard). -/
inductive DifficultyLevel
  | easy
  | medium
  | hard
  deriving DecidableEq, Repr

/-- Session status: the code stores the strings "in_progress" and "completed". -/
inductive SessionStatus
  | inProgress
  | completed
  deriving DecidableEq, Repr

/-- The agent's `_determine_next_difficulty(current_difficulty, average_score,
interview_progress)` from `agents/adaptive_interview_agent.py` lines 294-332,
transcribed branch for branch. -/
def determine_next_difficulty (current : DifficultyLevel) (average_score : ℚ)
    (interview_progress : ℚ) : DifficultyLevel :=
  if interview_progress < 3/10 then
    DifficultyLevel.medium
  else if 8 ≤ average_score then
    match current with
    | .easy => .medium
    | .medium => .hard
    | .hard => .hard
  else if average_score ≤ 5 then
    match current with
    | .hard => .medium
    | .medium => .easy
    | .easy => .easy
  else
    current

/-- One step up the difficulty scale with hard staying hard, as the spec words it. -/
def specStepUp : DifficultyLevel → DifficultyLevel
  | .easy => .medium
  | .medium => .hard
  | .hard => .hard

/-- One step down the difficulty scale with easy staying easy, as the spec words it. -/
def specStepDown : DifficultyLevel → DifficultyLevel
  | .hard => .medium
  | .medium => .easy
  | .easy => .easy

/-- The DifficultyController contract exactly as the spec states it
(§4.2 of the specification), written independently of the source transcription
so the two can be compared. -/
def specNextDifficulty (current : DifficultyLevel) (score : ℚ) (progress : ℚ) :
    DifficultyLevel :=
  if progress < 3/10 then DifficultyLevel.medium
  else if 8 ≤ score then specStepUp current
  else if score ≤ 5 then specStepDown current
  else current

/-- Claim C1: for every call to the difficulty controller, if the progress
fraction is below 0.3 the result is medium regardless of score and current
difficulty; otherwise a score ≥ 8.0 steps the difficulty up one level (hard
stays hard), a score ≤ 5.0 steps it down one level (easy stays easy), and any
other score leaves it unchanged; in particular next(hard, 9.0, 0.5) = hard and
next(easy, 2.0, 0.5) = easy. -/
theorem determine_next_difficulty_matches_spec :
    (∀ (d : DifficultyLevel) (s p : ℚ),
        determine_next_difficulty d s p = specNextDifficulty d s p) ∧
    determine_next_difficulty .hard 9 (1/2) = .hard ∧
    determine_next_difficulty .easy 2 (1/2) = .easy := by
  refine ⟨fun d s p => ?_, by norm_num [determine_next_difficulty],
    by norm_num [determine_next_difficulty]⟩
  unfold determine_next_difficulty specNextDifficulty specStepUp specStepDown
  split_ifs <;> cases d <;> rfl

/-- Interview question from `schemas/interview.py` (class `Question`).  The
free-form `context : Dict[str, Any]` metadata map is not modelled; no claim
depends on it. -/
structure Question where
  id : String
  text : String
  category : String
  difficulty : DifficultyLevel
  expected_duration : ℕ
  follow_up_hints : List String
  deriving DecidableEq, Repr

/-- The `description` of the `expected_duration` field of `Question` in
`schemas/interview.py` line 92: the data model declares the field to hold
seconds. -/
def question_expected_duration_description : String :=
  "Expected answer duration in seconds"

/-- Candidate response from `schemas/interview.py` (class `Response`).  The
timestamp and the `evaluation_details` dict are not modelled; no claim depends
on them. -/
structure Response where
  question_id : String
  answer : String
  time_taken : ℕ
  evaluation_score : Option ℚ
  deriving DecidableEq, Repr

/-- Request body of the respond endpoint (`schemas/interview.py`, class
`ResponseSubmit`). -/
structure ResponseSubmit where
  question_id : String
  answer : String
  time_taken : ℕ
  deriving DecidableEq, Repr

/-- Detailed response evaluation from `schemas/interview.py`
(class `ResponseEvaluation`); this is the ScoreCard of the specification.
`question_id` and `response_text` are declared with `Field(...)`
(lines 172-173), so pydantic requires both at construction time. -/
structure ResponseEvaluation where
  question_id : String
  response_text : String
  overall_score : ℚ
  technical_accuracy : ℚ
  communication_clarity : ℚ
  problem_solving_approach : ℚ
  experience_relevance : ℚ
  strengths : List String
  areas_for_improvement : List String
  suggestions : List String
  suggested_difficulty : DifficultyLevel
  follow_up_questions : List String
  skill_gaps : List String
  deriving DecidableEq, Repr

/-- The JSON object the evaluation parser may extract from the scorer's text
reply.  Every field is optional: the agent reads each key with
`evaluation_data.get(key, default)`.  A JSON dict carrying none of these keys
is modelled by the all-`none` record (which is exactly the Python-falsy empty
dict for the keys the code ever reads). -/
structure EvalJson where
  overall_score : Option ℚ := none
  technical_accuracy : Option ℚ := none
  communication_clarity : Option ℚ := none
  problem_solving_approach : Option ℚ := none
  experience_relevance : Option ℚ := none
  strengths : Option (List String) := none
  areas_for_improvement : Option (List String) := none
  suggestions : Option (List String) := none
  suggested_difficulty : Option DifficultyLevel := none
  follow_up_questions : Option (List String) := none
  skill_gaps : Option (List String) := none
  deriving DecidableEq, Repr

/-- The empty JSON dict (Python-falsy). -/
def emptyEvalJson : EvalJson := {}

/-- Outcome of calling the scoring backend (`self.agent.run` plus the JSON
extraction regex) in `evaluate_response`:
`failure` models any exception raised during the call or while building the
`ResponseEvaluation` (the outer `except` branch, lines 555-570);
`success extracted` models a returned text whose JSON extraction yielded
`extracted` (`none` when no JSON object could be extracted). -/
inductive AgentRunResult
  | failure
  | success (extracted : Option EvalJson)
  deriving DecidableEq, Repr

/-- The default dict returned by `_parse_evaluation_response` when no JSON can
be extracted or parsing raises (`agents/adaptive_interview_agent.py` lines
642-660): all four sub-scores and the overall score 7.0, suggested difficulty
"medium", no other keys. -/
def default_parse_json : EvalJson :=
  { overall_score := some 7
    technical_accuracy := some 7
    communication_clarity := some 7
    problem_solving_approach := some 7
    experience_relevance := some 7
    suggested_difficulty := some .medium }

/-- `_parse_evaluation_response` (lines 623-660): returns the extracted JSON
dict when one was found, and the 7.0-default dict otherwise. -/
def parse_evaluation_response (extracted : Option EvalJson) : EvalJson :=
  match extracted with
  | some j => j
  | none => default_parse_json

/-- An exception inside the agent's `evaluate_response`:
`validationError` is the pydantic `ValidationError` raised when a
`ResponseEvaluation` is constructed without its required fields;
`runFailure` is any exception from the model call itself. -/
inductive AgentError
  | validationError
  | runFailure
  deriving DecidableEq, Repr

/-- Pydantic construction of a `ResponseEvaluation`.  The model requires
`question_id` and `response_text` (`Field(...)`, schema lines 172-173):
constructing one without either raises a `ValidationError`. -/
def mk_response_evaluation (question_id response_text : Option String)
    (overall_score technical_accuracy communication_clarity
      problem_solving_approach experience_relevance : ℚ)
    (strengths areas_for_improvement suggestions : List String)
    (suggested_difficulty : DifficultyLevel)
    (follow_up_questions skill_gaps : List String) :
    Except AgentError ResponseEvaluation :=
  match question_id, response_text with
  | some qid, some rt =>
      .ok { question_id := qid
            response_text := rt
            overall_score := overall_score
            technical_accuracy := technical_accuracy
            communication_clarity := communication_clarity
            problem_solving_approach := problem_solving_approach
            experience_relevance := experience_relevance
            strengths := strengths
            areas_for_improvement := areas_for_improvement
            suggestions := suggestions
            suggested_difficulty := suggested_difficulty
            follow_up_questions := follow_up_questions
            skill_gaps := skill_gaps }
  | _, _ => .error .validationError

/-- The agent's `evaluate_response` (lines 478-570).  The try-block either
propagates a model-call exception or parses the reply and constructs a
`ResponseEvaluation` — passing no `question_id`/`response_text` (lines 525-537
and 541-553), so the construction raises.  The `except` handler (lines
555-570) then constructs the 5.0-default evaluation, again without the
required fields, and that `ValidationError` propagates to the caller: the
function raises on every path. -/
def evaluate_response (result : AgentRunResult) :
    Except AgentError ResponseEvaluation :=
  match
    (match result with
     | .failure => .error .runFailure
     | .success extracted =>
         let d := parse_evaluation_response extracted
         if d = emptyEvalJson then
           mk_response_evaluation none none 7 7 7 7 7
             ["Response provided"]
             ["Could provide more specific examples"]
             ["Consider adding concrete examples"]
             .medium
             ["Can you elaborate on that?"] []
         else
           mk_response_evaluation none none
             (d.overall_score.getD 7)
             (d.technical_accuracy.getD 7)
             (d.communication_clarity.getD 7)
             (d.problem_solving_approach.getD 7)
             (d.experience_relevance.getD 7)
             (d.strengths.getD [])
             (d.areas_for_improvement.getD [])
             (d.suggestions.getD [])
             (d.suggested_difficulty.getD .medium)
             (d.follow_up_questions.getD [])
             (d.skill_gaps.getD []) :
      Except AgentError ResponseEvaluation)
  with
  | .ok e => .ok e
  | .error _ =>
      mk_response_evaluation none none 5 5 5 5 5
        ["Response submitted"]
        ["Evaluation failed"]
        ["Please try to provide more detailed answers"]
        .medium
        ["Can you explain further?"] []

/-- Final interview report from `schemas/interview.py` (class
`InterviewReport`).  The candidate snapshot, the free-text `detailed_feedback`,
the `difficulty_progression` list and the generation timestamp are not
modelled; no claim depends on them. -/
structure InterviewReport where
  session_id : String
  position : String
  overall_score : ℚ
  technical_score : ℚ
  behavioral_score : ℚ
  communication_score : ℚ
  problem_solving_score : ℚ
  cultural_fit_score : ℚ
  strengths : List String
  areas_for_improvement : List String
  skill_gaps : List String
  recommendations : List String
  total_questions : ℕ
  total_responses : ℕ
  average_response_time : ℚ
  hiring_recommendation : String
  confidence_level : ℚ
  interview_duration : ℚ
  deriving DecidableEq, Repr

/-- The session record stored in Redis, mirroring the dict built in
`api/v1/endpoints/interviews.py` lines 197-215.  The candidate profile and the
file metadata are opaque to every claim and are not modelled; `started_at` and
`ended_at` are abstract times in seconds. -/
structure SessionData where
  session_id : String
  position : String
  interview_type : String
  current_phase : String
  current_difficulty : DifficultyLevel
  current_question_index : ℕ
  total_questions_asked : ℕ
  total_responses_received : ℕ
  average_score : ℚ
  questions : List Question
  responses : List Response
  evaluations : List ResponseEvaluation
  status : SessionStatus
  started_at : ℚ
  ended_at : Option ℚ
  duration_minutes : ℕ
  final_report : Option InterviewReport
  deriving DecidableEq, Repr

/-- Error taxonomy of the endpoints: each constructor is one of the
`HTTPException`s raised in `api/v1/endpoints/interviews.py`. -/
inductive ApiError
  | sessionNotFound        -- 404 "Interview session not found"
  | notInProgress          -- 400 "Interview session is not in progress"
  | noActiveQuestion       -- 400 "No active question to respond to"
  | alreadyCompleted       -- 400 "Interview session already completed"
  | notCompleted           -- 400 "Interview session is not completed"
  | reportNotFound         -- 404 "Interview report not found"
  | internalError          -- 500 "Failed to submit response: ..." (an uncaught exception)
  deriving DecidableEq, Repr

/-- The fresh session created by the start endpoint (lines 197-215): empty
histories, difficulty medium, phase "introduction", status in progress. -/
def initial_session (sid position interviewType : String) (durationMinutes : ℕ)
    (startedAt : ℚ) : SessionData :=
  { session_id := sid
    position := position
    interview_type := interviewType
    current_phase := "introduction"
    current_difficulty := .medium
    current_question_index := 0
    total_questions_asked := 0
    total_responses_received := 0
    average_score := 0
    questions := []
    responses := []
    evaluations := []
    status := .inProgress
    started_at := startedAt
    ended_at := none
    duration_minutes := durationMinutes
    final_report := none }

/-- The interview progress computed in `get_next_question` line 357:
`min(total_questions_asked / 10.0, 1.0)` — the denominator is the hard-coded
comment "Assume 10 questions max", not a phase plan. -/
def interview_progress (totalQuestionsAsked : ℕ) : ℚ :=
  min ((totalQuestionsAsked : ℚ) / 10) 1

/-- The Python-truthy evaluation scores of a response list: both the agent
(`_build_question_context` lines 239-244) and the respond endpoint (line 542)
keep `r.evaluation_score` only when it is present and nonzero. -/
def truthy_scores (responses : List Response) : List ℚ :=
  responses.filterMap fun r =>
    match r.evaluation_score with
    | some x => if x = 0 then none else some x
    | none => none

/-- The average score computed in the agent's `_build_question_context`
(lines 236-246): mean of the truthy scores, 0.0 when there are none. -/
def context_average_score (responses : List Response) : ℚ :=
  let scores := truthy_scores responses
  if scores = [] then 0 else scores.sum / scores.length

/-- The difficulty the agent requests for the next question: the endpoint
passes the stored `current_difficulty`, the full response history and the
progress fraction to `generate_next_question`, whose
`_build_question_context` (lines 248-251) runs `_determine_next_difficulty`
on them; the result is the `next_difficulty` placed in the prompt and used
verbatim by the deterministic fallback question generator. -/
def requested_next_difficulty (s : SessionData) : DifficultyLevel :=
  determine_next_difficulty s.current_difficulty
    (context_average_score s.responses)
    (interview_progress s.total_questions_asked)

/-- Body of the next-question response (`schemas/interview.py`, class
`QuestionResponse`, with the `context` dict of lines 382-387 flattened into
its four entries). -/
structure QuestionResponse where
  question : Question
  session_id : String
  question_number : ℕ
  time_limit : ℕ
  context_difficulty : DifficultyLevel
  context_category : String
  context_interview_progress : ℚ
  context_follow_up_hints : List String
  deriving DecidableEq, Repr

/-- The next-question endpoint `get_next_question` (lines 325-393).  The
generated question `q` is the value returned by the question provider (an
external collaborator); the endpoint appends it, bumps the counter and replies
with a time limit of `expected_duration * 60` ("Convert to seconds",
line 381). -/
def get_next_question (s : SessionData) (q : Question) :
    Except ApiError (SessionData × QuestionResponse) :=
  if s.status ≠ .inProgress then
    .error .notInProgress
  else
    let totalQuestions := s.total_questions_asked
    let progress := interview_progress totalQuestions
    let s' := { s with
      questions := s.questions ++ [q]
      total_questions_asked := totalQuestions + 1 }
    .ok (s',
      { question := q
        session_id := s.session_id
        question_number := totalQuestions + 1
        time_limit := q.expected_duration * 60
        context_difficulty := q.difficulty
        context_category := q.category
        context_interview_progress := progress
        context_follow_up_hints := q.follow_up_hints })

/-- The respond endpoint `submit_response` (lines 478-574) with the scorer
outcome as an explicit argument.  The endpoint checks only that the session is
in progress and that `current_question_index < len(questions)`; the submitted
`question_id` is never compared to anything.  It then calls the agent's
`evaluate_response`: an exception escaping that call is caught by the
endpoint's blanket handler (lines 573-574), which returns HTTP 500 without
writing anything.  When the evaluation does return, the endpoint records the
response and the evaluation, recomputes the average over the truthy scores
(leaving it unchanged when there are none), and overwrites
`current_difficulty` with the evaluation's suggested difficulty (line 547) —
a branch the agent's `ValidationError` makes unreachable. -/
def submit_response (s : SessionData) (sub : ResponseSubmit)
    (result : AgentRunResult) : Except ApiError SessionData :=
  if s.status ≠ .inProgress then
    .error .notInProgress
  else if s.questions.length ≤ s.current_question_index then
    .error .noActiveQuestion
  else
    match evaluate_response result with
    | .error _ => .error .internalError
    | .ok evaluation =>
        let response : Response :=
          { question_id := sub.question_id
            answer := sub.answer
            time_taken := sub.time_taken
            evaluation_score := some evaluation.overall_score }
        let responses' := s.responses ++ [response]
        let scores := truthy_scores responses'
        let average :=
          if scores = [] then s.average_score else scores.sum / scores.length
        .ok { s with
          responses := responses'
          evaluations := s.evaluations ++ [evaluation]
          current_question_index := s.current_question_index + 1
          total_responses_received := s.total_responses_received + 1
          average_score := average
          current_difficulty := evaluation.suggested_difficulty }

/-- `_generate_comprehensive_report` (lines 835-912): overall score is the
stored average; every per-dimension score is the same average (the source
comment reads "Simplified"); the recommendation is "hire" at ≥ 8.0, "consider"
at ≥ 6.0, else "reject"; the confidence level is the constant 0.8. -/
def generate_comprehensive_report (s : SessionData) : InterviewReport :=
  let average_score := s.average_score
  let response_times := s.responses.map fun r => (r.time_taken : ℚ)
  let average_response_time :=
    if response_times = [] then 0 else response_times.sum / response_times.length
  let interview_duration := (s.ended_at.getD s.started_at - s.started_at) / 60
  let hiring_recommendation :=
    if 8 ≤ average_score then "hire"
    else if 6 ≤ average_score then "consider"
    else "reject"
  { session_id := s.session_id
    position := s.position
    overall_score := average_score
    technical_score := average_score
    behavioral_score := average_score
    communication_score := average_score
    problem_solving_score := average_score
    cultural_fit_score := average_score
    strengths := ["Good communication", "Technical knowledge"]
    areas_for_improvement := ["Could provide more specific examples"]
    skill_gaps := []
    recommendations := ["Recommendation: " ++ hiring_recommendation.toUpper]
    total_questions := s.total_questions_asked
    total_responses := s.total_responses_received
    average_response_time := average_response_time
    hiring_recommendation := hiring_recommendation
    confidence_level := 4/5
    interview_duration := interview_duration }

/-- The finalize endpoint `finalize_interview` (lines 644-699): rejected when
the session is already completed; otherwise flips the status, records the end
time, attaches the generated report and persists. -/
def finalize_interview (s : SessionData) (endedAt : ℚ) :
    Except ApiError (SessionData × InterviewReport) :=
  if s.status = .completed then
    .error .alreadyCompleted
  else
    let s' := { s with status := .completed, ended_at := some endedAt }
    let report := generate_comprehensive_report s'
    .ok ({ s' with final_report := some report }, report)

/-- The report endpoint `get_interview_report` (lines 798-832): a pure read,
rejected before completion. -/
def get_interview_report (s : SessionData) : Except ApiError InterviewReport :=
  if s.status ≠ .completed then
    .error .notCompleted
  else
    match s.final_report with
    | some r => .ok r
    | none => .error .reportNotFound

/-- One operation on a stored session.  The question, the scorer outcome and
the end time stand for the values the external collaborators produce during
the call. -/
inductive Op
  | nextQuestion (q : Question)
  | submitAnswer (sub : ResponseSubmit) (result : AgentRunResult)
  | finalize (endedAt : ℚ)
  deriving DecidableEq, Repr

/-- Apply one endpoint call to the stored session.  When the endpoint raises,
the session is not written back (every store write in the source happens only
after the checks pass), so the stored state is unchanged. -/
def applyOp (s : SessionData) (op : Op) : SessionData :=
  match op with
  | .nextQuestion q =>
      match get_next_question s q with
      | .ok (s', _) => s'
      | .error _ => s
  | .submitAnswer sub result =>
      match submit_response s sub result with
      | .ok s' => s'
      | .error _ => s
  | .finalize endedAt =>
      match finalize_interview s endedAt with
      | .ok (s', _) => s'
      | .error _ => s

/-- The stored session after a sequence of endpoint calls. -/
def runOps (s : SessionData) (ops : List Op) : SessionData :=
  ops.foldl applyOp s

/-- Phase template from `core/interview_sequence.py` (dataclass
`PhaseConfig`). -/
structure PhaseConfig where
  name : String
  order : ℕ
  description : String
  duration_minutes : ℕ
  question_count : ℕ
  difficulty : String
  required_for : List String
  deriving DecidableEq, Repr

/-- Planned interview phase.  The source constructs `InterviewPhase` with
exactly these keyword fields (`core/interview_sequence.py` lines 211-218);
the class itself is imported from `schemas/interview.py`, where no such class
is defined, so the shape is taken from its construction sites. -/
structure InterviewPhase where
  phase_name : String
  phase_order : ℕ
  description : String
  estimated_duration : ℕ
  question_count : ℕ
  difficulty_level : String
  deriving DecidableEq, Repr

/-- The fixed phase catalog `_initialize_phase_configs` (lines 52-136), in
dict insertion order. -/
def phase_configs : List PhaseConfig :=
  [ { name := "Introduction & Ice Breaker", order := 1
      description := "Welcome candidate, explain interview process, and start with easy ice-breaker questions"
      duration_minutes := 5, question_count := 2, difficulty := "easy"
      required_for := ["technical", "behavioral", "mixed"] },
    { name := "Warm-up Questions", order := 2
      description := "Simple questions to build confidence and assess basic communication"
      duration_minutes := 8, question_count := 3, difficulty := "easy"
      required_for := ["technical", "behavioral", "mixed"] },
    { name := "Basic Technical Assessment", order := 3
      description := "Fundamental technical questions appropriate for the candidate's level"
      duration_minutes := 15, question_count := 4, difficulty := "medium"
      required_for := ["technical", "mixed"] },
    { name := "Advanced Technical Assessment", order := 4
      description := "Complex technical questions to test deep knowledge and problem-solving"
      duration_minutes := 20, question_count := 3, difficulty := "hard"
      required_for := ["technical", "mixed"] },
    { name := "Behavioral Assessment", order := 5
      description := "Questions about past experiences, teamwork, and soft skills"
      duration_minutes := 15, question_count := 4, difficulty := "medium"
      required_for := ["behavioral", "mixed"] },
    { name := "Problem-Solving Scenarios", order := 6
      description := "Real-world scenarios to test analytical thinking and decision-making"
      duration_minutes := 12, question_count := 2, difficulty := "hard"
      required_for := ["technical", "mixed"] },
    { name := "Situational Questions", order := 7
      description := "Hypothetical scenarios to assess judgment and approach"
      duration_minutes := 10, question_count := 2, difficulty := "medium"
      required_for := ["behavioral", "mixed"] },
    { name := "Cultural Fit Assessment", order := 8
      description := "Questions about work style, values, and team dynamics"
      duration_minutes := 8, question_count := 2, difficulty := "medium"
      required_for := ["behavioral", "mixed"] },
    { name := "Closing & Next Steps", order := 9
      description := "Wrap up interview, answer candidate questions, and explain next steps"
      duration_minutes := 5, question_count := 1, difficulty := "easy"
      required_for := ["technical", "behavioral", "mixed"] } ]

/-- Whether the second character list is a prefix of the first. -/
def startsWithChars : List Char → List Char → Bool
  | _, [] => true
  | [], _ :: _ => false
  | a :: as, b :: bs => a == b && startsWithChars as bs

/-- Whether the pattern occurs as a contiguous run of the text. -/
def containsSubChars : List Char → List Char → Bool
  | [], pat => pat.isEmpty
  | t :: ts, pat => startsWithChars (t :: ts) pat || containsSubChars ts pat

/-- Python's `str.lower()`, character by character. -/
def lowerString (s : String) : String :=
  ⟨s.data.map Char.toLower⟩

/-- Python's `pattern in text` substring test. -/
def containsSub (text pattern : String) : Bool :=
  containsSubChars text.data pattern.data

/-- `_determine_difficulty(base_difficulty, experience_years)`
(lines 220-238). -/
def determine_difficulty (base : String) (experience_years : ℚ) : String :=
  if experience_years ≤ 1 then
    if base = "hard" then "medium"
    else if base = "medium" then "easy"
    else "easy"
  else if 5 ≤ experience_years then
    if base = "easy" then "medium"
    else if base = "medium" then "hard"
    else "hard"
  else
    base

/-- `_adjust_question_count(base_count, experience_years, position)`
(lines 240-252). -/
def adjust_question_count (base_count : ℕ) (experience_years : ℚ)
    (position : String) : ℕ :=
  let c :=
    if containsSub (lowerString position) "senior" ||
       containsSub (lowerString position) "lead"
    then min (base_count + 1) 6 else base_count
  if experience_years ≤ 1 then max (c - 1) 1 else c

/-- `_adjust_duration_for_phase(base_duration, question_count, difficulty)`
(lines 254-267): normalize against a baseline of 3 questions, multiply by 1.3
for hard and 0.8 for easy, truncate to whole minutes and floor at 3. -/
def adjust_duration_for_phase (base_duration question_count : ℕ)
    (difficulty : String) : ℕ :=
  let duration : ℚ := base_duration * (question_count / 3 : ℚ)
  let duration :=
    if difficulty = "hard" then duration * (13/10)
    else if difficulty = "easy" then duration * (4/5)
    else duration
  max (Int.toNat ⌊duration⌋) 3

/-- The phase-duration formula written with natural-number division, for
computation: flooring the exact rational is integer division. -/
theorem adjust_duration_for_phase_eq (b c : ℕ) (d : String) :
    adjust_duration_for_phase b c d =
      max (if d = "hard" then b * c * 13 / 30
           else if d = "easy" then b * c * 4 / 15
           else b * c / 3) 3 := by
  unfold adjust_duration_for_phase
  by_cases h1 : d = "hard"
  · subst h1
    simp only [String.reduceEq, reduceIte, if_pos rfl]
    have e : (b : ℚ) * ((c : ℚ) / 3) * (13/10) =
        ((b * c * 13 : ℕ) : ℚ) / ((30 : ℕ) : ℚ) := by push_cast; ring
    rw [e, Rat.floor_natCast_div_natCast, ← Int.ofNat_ediv, Int.toNat_natCast]
  · by_cases h2 : d = "easy"
    · subst h2
      simp only [String.reduceEq, reduceIte]
      have e : (b : ℚ) * ((c : ℚ) / 3) * (4/5) =
          ((b * c * 4 : ℕ) : ℚ) / ((15 : ℕ) : ℚ) := by push_cast; ring
      rw [e, Rat.floor_natCast_div_natCast, ← Int.ofNat_ediv, Int.toNat_natCast]
    · simp only [if_neg h1, if_neg h2]
      have e : (b : ℚ) * ((c : ℚ) / 3) =
          ((b * c : ℕ) : ℚ) / ((3 : ℕ) : ℚ) := by push_cast; ring
      rw [e, Rat.floor_natCast_div_natCast, ← Int.ofNat_ediv, Int.toNat_natCast]

/-- `_adjust_phase_for_candidate` (lines 179-218).  The source reads
`candidate.experience_years`; the candidate's experience is taken here as an
explicit argument. -/
def adjust_phase_for_candidate (config : PhaseConfig) (experience_years : ℚ)
    (position : String) : InterviewPhase :=
  let difficulty := determine_difficulty config.difficulty experience_years
  let question_count :=
    adjust_question_count config.question_count experience_years position
  let duration :=
    adjust_duration_for_phase config.duration_minutes question_count difficulty
  { phase_name := config.name
    phase_order := config.order
    description := config.description
    estimated_duration := duration
    question_count := question_count
    difficulty_level := difficulty }

/-- `_adjust_duration(phases, total_duration)` (lines 269-294): when the
estimated total fits the budget the phases are returned untouched; otherwise
every phase is rescaled by the single ratio `total_duration / total_estimated`,
truncated to whole minutes and re-floored at 3. -/
def adjust_duration (phases : List InterviewPhase) (total_duration : ℕ) :
    List InterviewPhase :=
  let total_estimated := (phases.map fun p => p.estimated_duration).sum
  if total_estimated ≤ total_duration then phases
  else
    phases.map fun p =>
      { p with
        estimated_duration :=
          max (Int.toNat ⌊(p.estimated_duration : ℚ) * total_duration / total_estimated⌋) 3 }

/-- `generate_interview_sequence` (lines 138-177): select the templates whose
`required_for` mentions the interview type, sort by phase order (`list.sort`
is stable; insertion sort is too), adjust each for the candidate, then fit the
durations to the budget. -/
def generate_interview_sequence (experience_years : ℚ)
    (position interview_type : String) (total_duration : ℕ) :
    List InterviewPhase :=
  let required := phase_configs.filter fun c =>
    c.required_for.contains interview_type
  let sorted := required.insertionSort fun a b => a.order ≤ b.order
  let adjusted := sorted.map fun c =>
    adjust_phase_for_candidate c experience_years position
  adjust_duration adjusted total_duration

/-- Total planned question count of a phase plan. -/
def planned_total_questions (phases : List InterviewPhase) : ℕ :=
  (phases.map fun p => p.question_count).sum

/-! Concrete sample data used by the counterexamples and witnesses. -/

/-- A question as the agent's fallback generator would produce it. -/
def sampleQuestion : Question :=
  { id := "q_1"
    text := "Tell me about your experience."
    category := "technical"
    difficulty := .medium
    expected_duration := 300
    follow_up_hints := [] }

/-- A session right after one question has been issued and none answered. -/
def sampleSession : SessionData :=
  { initial_session "sess-1" "Software Engineer" "technical" 60 0 with
    questions := [sampleQuestion]
    total_questions_asked := 1 }

/-! Helper lemmas: the branch behaviour of the endpoints, with the external
collaborator results kept opaque. -/

/-- The agent's evaluation raises on every input: whichever branch runs, a
`ResponseEvaluation` is constructed without the required
`question_id`/`response_text`, and the `ValidationError` raised inside the
`except` handler propagates. -/
lemma evaluate_response_raises (r : AgentRunResult) :
    evaluate_response r = .error .validationError := by
  cases r with
  | failure => rfl
  | success extracted =>
      rw [evaluate_response]
      simp only [mk_response_evaluation, ite_self]

/-- Error branch of `submit_response` on a completed session. -/
lemma submit_response_not_in_progress (s : SessionData) (sub : ResponseSubmit)
    (r : AgentRunResult) (hst : s.status ≠ .inProgress) :
    submit_response s sub r = .error .notInProgress := by
  rw [submit_response, if_pos hst]

/-- Error branch of `submit_response` when no question is outstanding. -/
lemma submit_response_no_active (s : SessionData) (sub : ResponseSubmit)
    (r : AgentRunResult) (hst : s.status = .inProgress)
    (hq : s.questions.length ≤ s.current_question_index) :
    submit_response s sub r = .error .noActiveQuestion := by
  rw [submit_response, if_neg (by simp [hst]), if_pos hq]

/-- With the session checks passed, `submit_response` always ends in the
endpoint's blanket exception handler: the evaluation raises before anything
is recorded. -/
lemma submit_response_internal_error (s : SessionData) (sub : ResponseSubmit)
    (r : AgentRunResult) (hst : s.status = .inProgress)
    (hq : s.current_question_index < s.questions.length) :
    submit_response s sub r = .error .internalError := by
  rw [submit_response, if_neg (by simp [hst]), if_neg (by omega),
    evaluate_response_raises]

/-- `submit_response` never succeeds. -/
lemma submit_response_never_ok (s : SessionData) (sub : ResponseSubmit)
    (r : AgentRunResult) : (submit_response s sub r).isOk = false := by
  by_cases hst : s.status = .inProgress
  · by_cases hq : s.questions.length ≤ s.current_question_index
    · rw [submit_response_no_active s sub r hst hq]; rfl
    · rw [submit_response_internal_error s sub r hst (by omega)]; rfl
  · rw [submit_response_not_in_progress s sub r hst]; rfl

/-- Success branch of `get_next_question` as one equation. -/
lemma get_next_question_ok (s : SessionData) (q : Question)
    (hst : s.status = .inProgress) :
    get_next_question s q =
      .ok ({ s with
              questions := s.questions ++ [q]
              total_questions_asked := s.total_questions_asked + 1 },
           { question := q
             session_id := s.session_id
             question_number := s.total_questions_asked + 1
             time_limit := q.expected_duration * 60
             context_difficulty := q.difficulty
             context_category := q.category
             context_interview_progress :=
               interview_progress s.total_questions_asked
             context_follow_up_hints := q.follow_up_hints }) := by
  rw [get_next_question, if_neg (by simp [hst])]

/-- Success branch of `finalize_interview` as one equation. -/
lemma finalize_interview_ok (s : SessionData) (t : ℚ)
    (hst : s.status = .inProgress) :
    finalize_interview s t =
      .ok ({ s with
              status := .completed
              ended_at := some t
              final_report := some (generate_comprehensive_report
                { s with status := .completed, ended_at := some t }) },
           generate_comprehensive_report
             { s with status := .completed, ended_at := some t }) := by
  rw [finalize_interview, if_neg (by simp [hst])]

/-- Submitting an answer never changes the stored session: the call always
fails, and on failure nothing is written back. -/
lemma applyOp_submit_eq (s : SessionData) (sub : ResponseSubmit)
    (r : AgentRunResult) : applyOp s (.submitAnswer sub r) = s := by
  cases h : submit_response s sub r with
  | ok s' =>
      have hn := submit_response_never_ok s sub r
      rw [h] at hn
      cases hn
  | error e => rw [applyOp, h]

/-! Claim C2 -/

/-- Claim C2: for every submitted answer whose scoring backend fails or
returns unparsable data (indeed, for every scorer outcome), the error is
surfaced to the caller — the respond endpoint returns the 500 internal error
raised by the ScoreCard validation — and no substitute ScoreCard with default
scores is ever recorded: the evaluation itself raises (the default
constructions lack the model's required `question_id`/`response_text`), so
`submit_response` never succeeds. -/
theorem scorer_failure_surfaced (s : SessionData) (sub : ResponseSubmit)
    (r : AgentRunResult) (hst : s.status = .inProgress)
    (hq : s.current_question_index < s.questions.length) :
    (r = .failure ∨ r = .success none →
      submit_response s sub r = .error .internalError) ∧
    (∀ s', submit_response s sub r ≠ .ok s') ∧
    evaluate_response r = .error .validationError := by
  refine ⟨fun _ => submit_response_internal_error s sub r hst hq,
    fun s' hok => ?_, evaluate_response_raises r⟩
  have hn := submit_response_never_ok s sub r
  rw [hok] at hn
  cases hn

/-- Concrete instance of `scorer_failure_surfaced`: a scorer exception on a
session with an outstanding question surfaces as the internal error. -/
theorem scorer_failure_surfaced_witness :
    submit_response sampleSession ⟨"q_1", "w", 30⟩ .failure =
      .error .internalError :=
  (scorer_failure_surfaced sampleSession ⟨"q_1", "w", 30⟩ .failure rfl
    (by norm_num [sampleSession, initial_session])).1 (Or.inl rfl)

/-! Claim C3 -/

/-- Claim C3, counterexample: a submit whose `question_id` matches no issued
question is not rejected with `NoActiveQuestion` — on a session whose only
question has id "q_1" and is unanswered, the call fails with the internal
(500) error from the ScoreCard validation, and a submit with the matching id
"q_1" fails identically, so the id is never consulted. -/
theorem submit_mismatch_not_no_active_question :
    submit_response sampleSession ⟨"no-such-question", "an answer", 45⟩
      (.success (some default_parse_json)) = .error .internalError ∧
    submit_response sampleSession ⟨"q_1", "an answer", 45⟩
      (.success (some default_parse_json)) = .error .internalError ∧
    ApiError.internalError ≠ ApiError.noActiveQuestion ∧
    sampleSession.questions.map (fun q => q.id) = ["q_1"] := by
  refine ⟨?_, ?_, by decide, rfl⟩ <;>
    exact submit_response_internal_error _ _ _ rfl
      (by norm_num [sampleSession, initial_session])

/-- Claim C3, amended: on an in-progress session, `submit_response` never
inspects the supplied `question_id`: it is rejected with `NoActiveQuestion`
exactly when `current_question_index` has reached the number of issued
questions, and otherwise fails with the internal (500) error from the
ScoreCard validation — the same outcome for any id; in every case the call
does not succeed, so no Answer or ScoreCard is recorded. -/
theorem submit_rejection_rule (s : SessionData) (sub : ResponseSubmit)
    (r : AgentRunResult) (hst : s.status = .inProgress) :
    (s.questions.length ≤ s.current_question_index →
      submit_response s sub r = .error .noActiveQuestion) ∧
    (s.current_question_index < s.questions.length →
      submit_response s sub r = .error .internalError) ∧
    (submit_response s sub r).isOk = false :=
  ⟨fun hq => submit_response_no_active s sub r hst hq,
   fun hq => submit_response_internal_error s sub r hst hq,
   submit_response_never_ok s sub r⟩

/-- Concrete instance of `submit_rejection_rule`. -/
theorem submit_rejection_rule_witness :
    submit_response sampleSession ⟨"x", "y", 1⟩ .failure =
      .error .internalError :=
  (submit_rejection_rule sampleSession ⟨"x", "y", 1⟩ .failure rfl).2.1
    (by norm_num [sampleSession, initial_session])

lemma get_next_question_not_in_progress (s : SessionData) (q : Question)
    (hst : s.status ≠ .inProgress) :
    get_next_question s q = .error .notInProgress := by
  rw [get_next_question, if_pos hst]

/-- Error branch of `finalize_interview` on a completed session. -/
lemma finalize_interview_already_completed (s : SessionData) (t : ℚ)
    (hst : s.status = .completed) :
    finalize_interview s t = .error .alreadyCompleted := by
  rw [finalize_interview, if_pos hst]

/-! Claim C4 -/

/-- A session about to be finalized with average score 8.3 (the spec's own
scenario for `strong_hire`). -/
def sessionAvg83 : SessionData :=
  { sampleSession with
    current_question_index := 1
    total_responses_received := 1
    average_score := 83/10
    responses := [{ question_id := "q_1", answer := "a", time_taken := 120,
                    evaluation_score := some (83/10) }] }

/-- Claim C4, counterexample: finalizing a session whose average overall score
is 8.3 produces the recommendation "hire" with confidence 0.8 — not
"strong_hire" with confidence 0.9 as the claim requires; the code has only
the three bands hire (≥ 8.0) / consider (≥ 6.0) / reject, all with the
constant confidence 0.8. -/
theorem report_no_strong_hire_band :
    ((finalize_interview sessionAvg83 600).toOption.map fun p =>
      (p.2.overall_score, p.2.hiring_recommendation, p.2.confidence_level)) =
      some (83/10, "hire", 4/5) ∧
    "hire" ≠ "strong_hire" ∧
    (4/5 : ℚ) ≠ 9/10 := by
  rw [finalize_interview_ok _ _ rfl]
  refine ⟨?_, by decide, by norm_num⟩
  simp only [Except.toOption, Option.map_some]
  norm_num [generate_comprehensive_report, sessionAvg83, sampleSession,
    initial_session]

/-- Claim C4, amended: the report's hiring recommendation is computed from the
overall score with three bands, inclusive at the lower bounds — "hire" when
overall_score ≥ 8.0, "consider" when 6.0 ≤ overall_score < 8.0, and "reject"
otherwise — and the confidence level is the constant 0.8 for every band;
there is no strong_hire band and no do_not_hire label. -/
theorem finalize_report_bands (s : SessionData) (t : ℚ)
    (hst : s.status = .inProgress) :
    ((finalize_interview s t).toOption.map fun p => p.2.overall_score) =
      some s.average_score ∧
    ((finalize_interview s t).toOption.map fun p => p.2.hiring_recommendation) =
      some (if 8 ≤ s.average_score then "hire"
            else if 6 ≤ s.average_score then "consider" else "reject") ∧
    ((finalize_interview s t).toOption.map fun p => p.2.confidence_level) =
      some (4/5) := by
  rw [finalize_interview_ok s t hst]
  exact ⟨rfl, rfl, rfl⟩

/-- Concrete instance of `finalize_report_bands`. -/
theorem finalize_report_bands_witness :
    ((finalize_interview sampleSession 600).toOption.map fun p =>
      p.2.confidence_level) = some (4/5) :=
  (finalize_report_bands sampleSession 600 rfl).2.2

/-! Claim C5 -/

/-- A technical-interview session with three questions asked. -/
def sessionAsked3 : SessionData :=
  { sampleSession with
    questions := [sampleQuestion, { sampleQuestion with id := "q_2" },
                  { sampleQuestion with id := "q_3" }]
    total_questions_asked := 3 }

/-- Claim C5, counterexample: the progress fraction returned with the next
question of a technical session that has asked 3 questions is 3/10 — the
denominator is the hard-coded constant 10 ("Assume 10 questions max") — while
the planner's phase plan for this session's candidate (3 years experience,
technical style) totals 15 planned questions, so the claimed value would be
3/15. -/
theorem progress_uses_hardcoded_ten :
    ((get_next_question sessionAsked3 { sampleQuestion with id := "q_4" }).toOption.map
      fun p => p.2.context_interview_progress) = some (3/10) ∧
    planned_total_questions
      (generate_interview_sequence 3 "Software Engineer" "technical" 60) = 15 ∧
    (3 : ℚ) / 15 ≠ 3/10 := by
  rw [get_next_question_ok _ _ rfl]
  refine ⟨?_, ?_, by norm_num⟩
  · simp only [Except.toOption, Option.map_some]
    norm_num [interview_progress, sessionAsked3, sampleSession, initial_session]
  · simp only [planned_total_questions, generate_interview_sequence,
      adjust_phase_for_candidate, adjust_duration_for_phase_eq]
    decide

/-- Claim C5, amended: the progress fraction used for the next question and
returned in its context is `total_questions_asked / 10`, clamped above at 1
(an assumed fixed maximum of 10 questions); no phase plan is consulted — the
session stores none and the sequence planner is not used by the endpoint. -/
theorem progress_fraction_formula (s : SessionData) (q : Question)
    (hst : s.status = .inProgress) :
    ((get_next_question s q).toOption.map
      fun p => p.2.context_interview_progress) =
      some (min ((s.total_questions_asked : ℚ) / 10) 1) ∧
    0 ≤ min ((s.total_questions_asked : ℚ) / 10) 1 ∧
    min ((s.total_questions_asked : ℚ) / 10) 1 ≤ 1 := by
  refine ⟨?_, ?_, min_le_right _ _⟩
  · rw [get_next_question_ok s q hst]
    rfl
  · exact le_min (by positivity) zero_le_one

/-- Concrete instance of `progress_fraction_formula`. -/
theorem progress_fraction_formula_witness :
    ((get_next_question sessionAsked3 sampleQuestion).toOption.map
      fun p => p.2.context_interview_progress) =
      some (min ((sessionAsked3.total_questions_asked : ℚ) / 10) 1) :=
  (progress_fraction_formula sessionAsked3 sampleQuestion rfl).1

/-- Fields of the stored session that no endpoint call can change: the only
writes to the difficulty, the average and the response/evaluation histories
sit in the unreachable success branch of the respond endpoint. -/
lemma applyOp_fixed_fields (s : SessionData) (op : Op) :
    (applyOp s op).current_difficulty = s.current_difficulty ∧
    (applyOp s op).average_score = s.average_score ∧
    (applyOp s op).responses = s.responses ∧
    (applyOp s op).evaluations = s.evaluations := by
  cases op with
  | nextQuestion q =>
      by_cases hst : s.status = .inProgress
      · rw [applyOp, get_next_question_ok s q hst]
        exact ⟨rfl, rfl, rfl, rfl⟩
      · rw [applyOp, get_next_question_not_in_progress s q hst]
        exact ⟨rfl, rfl, rfl, rfl⟩
  | submitAnswer sub r =>
      rw [applyOp_submit_eq]
      exact ⟨rfl, rfl, rfl, rfl⟩
  | finalize t =>
      by_cases hst : s.status = .completed
      · rw [applyOp, finalize_interview_already_completed s t hst]
        exact ⟨rfl, rfl, rfl, rfl⟩
      · rw [applyOp, finalize_interview_ok s t (by cases hs : s.status <;> simp_all)]
        exact ⟨rfl, rfl, rfl, rfl⟩

/-- Those fields are fixed along every trace. -/
lemma runOps_fixed_fields (ops : List Op) :
    ∀ s : SessionData,
      (runOps s ops).current_difficulty = s.current_difficulty ∧
      (runOps s ops).average_score = s.average_score ∧
      (runOps s ops).responses = s.responses ∧
      (runOps s ops).evaluations = s.evaluations := by
  induction ops with
  | nil => exact fun s => ⟨rfl, rfl, rfl, rfl⟩
  | cons op ops ih =>
      intro s
      have h1 := applyOp_fixed_fields s op
      have h2 := ih (applyOp s op)
      rw [runOps, List.foldl_cons]
      rw [runOps] at h2
      exact ⟨h2.1.trans h1.1, h2.2.1.trans h1.2.1,
        h2.2.2.1.trans h1.2.2.1, h2.2.2.2.trans h1.2.2.2⟩

/-! Claim C6 -/

/-- A scorer reply carrying a well-formed ScoreCard JSON: overall score 4.0,
suggested next difficulty hard. -/
def jsonScore4Hard : EvalJson :=
  { overall_score := some 4, suggested_difficulty := some .hard }

/-- Claim C6, counterexample: an answer whose scoring backend returned a
well-formed ScoreCard suggesting hard does not set the session's current
difficulty to hard — the submit fails on the ScoreCard validation and leaves
the stored session (difficulty medium) completely unchanged, so the
suggestion never takes effect, let alone precedence. -/
theorem scorecard_suggestion_never_stored :
    applyOp sampleSession (.submitAnswer ⟨"q_1", "answer", 60⟩
      (.success (some jsonScore4Hard))) = sampleSession ∧
    sampleSession.current_difficulty = .medium ∧
    jsonScore4Hard.suggested_difficulty = some .hard ∧
    DifficultyLevel.medium ≠ .hard :=
  ⟨applyOp_submit_eq _ _ _, rfl, rfl, by decide⟩

/-- Claim C6, amended: no answer is ever successfully scored — submitting an
answer never changes the stored session, so the difficulty-overwrite of
line 547 is dead code and the current difficulty stays medium in every
reachable state; the difficulty requested for the following question is
always the DifficultyController applied to the stored current difficulty,
rolling average and progress fraction. -/
theorem difficulty_never_from_scorecard :
    (∀ (s : SessionData) (sub : ResponseSubmit) (r : AgentRunResult),
      applyOp s (.submitAnswer sub r) = s) ∧
    (∀ (sid pos it : String) (dm : ℕ) (st : ℚ) (ops : List Op),
      (runOps (initial_session sid pos it dm st) ops).current_difficulty =
        .medium) ∧
    (∀ s : SessionData, requested_next_difficulty s =
      determine_next_difficulty s.current_difficulty
        (context_average_score s.responses)
        (interview_progress s.total_questions_asked)) := by
  refine ⟨applyOp_submit_eq, fun sid pos it dm st ops => ?_, fun s => rfl⟩
  exact (runOps_fixed_fields ops (initial_session sid pos it dm st)).1

/-! Claim C7 -/

/-- A scorer reply carrying a well-formed ScoreCard JSON with overall score
8.0. -/
def jsonScore8 : EvalJson :=
  { overall_score := some 8, suggested_difficulty := some .medium }

/-- Claim C7, counterexample: an answer whose scoring backend returned a
well-formed ScoreCard with overall score 8.0 leaves the stored running
average untouched at 0.0 — the submit fails on the ScoreCard validation and
records nothing, so the average is not the mean of any recorded history. -/
theorem average_never_updated :
    applyOp sampleSession (.submitAnswer ⟨"q_1", "answer", 60⟩
      (.success (some jsonScore8))) = sampleSession ∧
    (submit_response sampleSession ⟨"q_1", "answer", 60⟩
      (.success (some jsonScore8))).isOk = false ∧
    sampleSession.average_score = 0 ∧
    jsonScore8.overall_score = some 8 ∧
    (0 : ℚ) ≠ 8 :=
  ⟨applyOp_submit_eq _ _ _, submit_response_never_ok _ _ _, rfl, rfl,
   by norm_num⟩

/-- Claim C7, amended: the running average is never recomputed, because no
ScoreCard is ever recorded: every submit fails before the average update of
lines 541-544, so in every reachable session state the response and
evaluation histories are empty and the stored average keeps its initial
value 0.0. -/
theorem no_scorecard_history (sid pos it : String) (dm : ℕ) (st : ℚ)
    (ops : List Op) :
    (runOps (initial_session sid pos it dm st) ops).average_score = 0 ∧
    (runOps (initial_session sid pos it dm st) ops).responses = [] ∧
    (runOps (initial_session sid pos it dm st) ops).evaluations = [] := by
  have h := runOps_fixed_fields ops (initial_session sid pos it dm st)
  exact ⟨h.2.1, h.2.2.1, h.2.2.2⟩

/-! Claim C8 -/

/-- The inductive invariant of the stored session: the answer cursor equals
the number of recorded responses, which never exceeds the number of recorded
questions. -/
def SessionInv (s : SessionData) : Prop :=
  s.current_question_index = s.responses.length ∧
  s.responses.length ≤ s.questions.length

/-- A completed session is a fixed point of every endpoint call. -/
lemma applyOp_completed (s : SessionData) (op : Op)
    (h : s.status = .completed) : applyOp s op = s := by
  cases op with
  | nextQuestion q =>
      rw [applyOp, get_next_question_not_in_progress s q (by simp [h])]
  | submitAnswer sub r =>
      rw [applyOp, submit_response_not_in_progress s sub r (by simp [h])]
  | finalize t =>
      rw [applyOp, finalize_interview_already_completed s t h]

/-- Every endpoint call preserves the session invariant. -/
lemma applyOp_inv (s : SessionData) (op : Op) (h : SessionInv s) :
    SessionInv (applyOp s op) := by
  obtain ⟨h1, h2⟩ := h
  cases op with
  | nextQuestion q =>
      by_cases hst : s.status = .inProgress
      · rw [applyOp, get_next_question_ok s q hst]
        exact ⟨h1, by simp; omega⟩
      · rw [applyOp, get_next_question_not_in_progress s q hst]
        exact ⟨h1, h2⟩
  | submitAnswer sub r =>
      rw [applyOp_submit_eq]
      exact ⟨h1, h2⟩
  | finalize t =>
      by_cases hst : s.status = .completed
      · rw [applyOp, finalize_interview_already_completed s t hst]
        exact ⟨h1, h2⟩
      · rw [applyOp, finalize_interview_ok s t (by cases hs : s.status <;> simp_all)]
        exact ⟨h1, h2⟩

/-- The invariant holds along every trace. -/
lemma runOps_inv (s : SessionData) (ops : List Op) (h : SessionInv s) :
    SessionInv (runOps s ops) := by
  induction ops generalizing s with
  | nil => exact h
  | cons op ops ih => exact ih (applyOp s op) (applyOp_inv s op h)

/-- A trace of question requests keeps the session in progress and adds one
question per call. -/
lemma runOps_replicate_next (q : Question) (n : ℕ) :
    ∀ s : SessionData, s.status = .inProgress →
      (runOps s (List.replicate n (.nextQuestion q))).questions.length =
        s.questions.length + n ∧
      (runOps s (List.replicate n (.nextQuestion q))).status = .inProgress := by
  induction n with
  | zero => exact fun s hst => ⟨rfl, hst⟩
  | succ n ih =>
      intro s hst
      rw [List.replicate_succ]
      have hstep : applyOp s (.nextQuestion q) =
          { s with questions := s.questions ++ [q]
                   total_questions_asked := s.total_questions_asked + 1 } := by
        rw [applyOp, get_next_question_ok s q hst]
      have := ih ({ s with questions := s.questions ++ [q]
                           total_questions_asked := s.total_questions_asked + 1 })
        hst
      refine ⟨?_, ?_⟩ <;>
        (rw [runOps, List.foldl_cons, hstep]; rw [runOps] at this;
         simp [this.1, this.2]; try omega)

/-- Claim C8, counterexample: the code puts no planned-total cap on questions.
Starting a technical session for a mid-level candidate (whose planner phase
plan totals 15 questions) and calling `next_question` 16 times yields a
reachable state with 16 recorded questions — more than the planned total. -/
theorem questions_not_bounded_by_plan :
    (runOps (initial_session "sess-2" "Software Engineer" "technical" 60 0)
      (List.replicate 16 (.nextQuestion sampleQuestion))).questions.length = 16 ∧
    planned_total_questions
      (generate_interview_sequence 3 "Software Engineer" "technical" 60) = 15 ∧
    15 < 16 := by
  refine ⟨?_, ?_, by omega⟩
  · have := (runOps_replicate_next sampleQuestion 16
      (initial_session "sess-2" "Software Engineer" "technical" 60 0) rfl).1
    simpa [initial_session] using this
  · simp only [planned_total_questions, generate_interview_sequence,
      adjust_phase_for_candidate, adjust_duration_for_phase_eq]
    decide

/-- Claim C8, amended: in every state reachable from a fresh session by any
sequence of next_question, submit_answer and finalize calls, the number of
recorded Answers is at most the number of recorded Questions, and the status
only ever moves from in_progress to completed (a completed session is a fixed
point of every operation); but the number of recorded Questions is not
bounded by any planned total — no phase plan is stored or consulted, so
`next_question` succeeds on every in-progress session regardless of how many
questions were already asked. -/
theorem session_state_invariants :
    (∀ (sid pos it : String) (dm : ℕ) (st : ℚ) (ops : List Op),
      (runOps (initial_session sid pos it dm st) ops).responses.length ≤
        (runOps (initial_session sid pos it dm st) ops).questions.length) ∧
    (∀ (s : SessionData) (op : Op), s.status = .completed → applyOp s op = s) ∧
    (∀ (s : SessionData) (q : Question), s.status = .inProgress →
      (get_next_question s q).isOk = true) := by
  refine ⟨?_, applyOp_completed, ?_⟩
  · intro sid pos it dm st ops
    exact (runOps_inv (initial_session sid pos it dm st) ops
      ⟨rfl, by simp [initial_session]⟩).2
  · intro s q hst
    rw [get_next_question_ok s q hst]
    rfl

/-- Concrete instance of `session_state_invariants`. -/
theorem session_state_invariants_witness :
    (runOps (initial_session "sess-3" "p" "technical" 60 0)
      [.nextQuestion sampleQuestion,
       .submitAnswer ⟨"q_1", "a", 5⟩ .failure]).responses.length ≤
      (runOps (initial_session "sess-3" "p" "technical" 60 0)
        [.nextQuestion sampleQuestion,
         .submitAnswer ⟨"q_1", "a", 5⟩ .failure]).questions.length ∧
    (get_next_question sampleSession sampleQuestion).isOk = true :=
  ⟨session_state_invariants.1 "sess-3" "p" "technical" 60 0
    [.nextQuestion sampleQuestion, .submitAnswer ⟨"q_1", "a", 5⟩ .failure],
   session_state_invariants.2.2 sampleSession sampleQuestion rfl⟩

/-! Claim C9 -/

/-- Claim C9: the time limit returned with every successfully issued question
is the question's `expected_duration` field multiplied by 60 (the source
comments the multiplication with "Convert to seconds"), while the Question
data model declares `expected_duration` itself to hold seconds. -/
theorem time_limit_is_expected_duration_times_sixty (s : SessionData)
    (q : Question) (hst : s.status = .inProgress) :
    ((get_next_question s q).toOption.map fun p => p.2.time_limit) =
      some (q.expected_duration * 60) ∧
    question_expected_duration_description =
      "Expected answer duration in seconds" := by
  rw [get_next_question_ok s q hst]
  exact ⟨rfl, rfl⟩

/-- Concrete instance of `time_limit_is_expected_duration_times_sixty`: a
300-second question is returned with an 18000-second time limit. -/
theorem time_limit_witness :
    ((get_next_question sampleSession sampleQuestion).toOption.map
      fun p => p.2.time_limit) =
      some (sampleQuestion.expected_duration * 60) :=
  (time_limit_is_expected_duration_times_sixty sampleSession sampleQuestion
    rfl).1


/-! Claim C10 -/

/-- Sum of the truncated scaled durations is bounded by the budget when no
term is clamped from below. -/
lemma scaled_sum_le (phases : List InterviewPhase) (td : ℕ)
    (h : td < (phases.map fun p => p.estimated_duration).sum)
    (hfl : ∀ p ∈ phases, 3 ≤ ⌊(p.estimated_duration : ℚ) * td /
      ((((phases.map fun p => p.estimated_duration).sum : ℕ)) : ℚ)⌋) :
    (phases.map fun p => max (Int.toNat ⌊(p.estimated_duration : ℚ) * td /
      ((((phases.map fun p => p.estimated_duration).sum : ℕ)) : ℚ)⌋) 3).sum ≤
      td := by
  set te : ℕ := (phases.map fun p => p.estimated_duration).sum with hte
  have h0 : 0 < te := lt_of_le_of_lt (Nat.zero_le td) h
  have hte0 : (0 : ℚ) < (te : ℚ) := by exact_mod_cast h0
  have hmax : ∀ p ∈ phases,
      max (Int.toNat ⌊(p.estimated_duration : ℚ) * td / (te : ℚ)⌋) 3 =
        Int.toNat ⌊(p.estimated_duration : ℚ) * td / (te : ℚ)⌋ := by
    intro p hp
    have h3 := hfl p hp
    omega
  rw [List.map_congr_left hmax]
  rw [← @Nat.cast_le ℚ]
  calc (((phases.map fun p => Int.toNat
        ⌊(p.estimated_duration : ℚ) * td / (te : ℚ)⌋).sum : ℕ) : ℚ)
      = (phases.map (Nat.cast ∘ fun p => Int.toNat
          ⌊(p.estimated_duration : ℚ) * td / (te : ℚ)⌋)).sum := by
        rw [Nat.cast_list_sum, List.map_map]
    _ ≤ (phases.map fun p =>
          (p.estimated_duration : ℚ) * td / (te : ℚ)).sum := by
        refine List.sum_le_sum ?_
        intro p hp
        have h3 := hfl p hp
        have hnn : (0 : ℤ) ≤ ⌊(p.estimated_duration : ℚ) * td / (te : ℚ)⌋ := by
          omega
        have hcast : ((Int.toNat ⌊(p.estimated_duration : ℚ) * td /
            (te : ℚ)⌋ : ℕ) : ℚ) =
            ((⌊(p.estimated_duration : ℚ) * td / (te : ℚ)⌋ : ℤ) : ℚ) := by
          exact_mod_cast congrArg Int.cast (Int.toNat_of_nonneg hnn)
        calc ((Int.toNat ⌊(p.estimated_duration : ℚ) * td / (te : ℚ)⌋ : ℕ) : ℚ)
            = ((⌊(p.estimated_duration : ℚ) * td / (te : ℚ)⌋ : ℤ) : ℚ) := hcast
          _ ≤ (p.estimated_duration : ℚ) * td / (te : ℚ) := Int.floor_le _
    _ = (phases.map fun p =>
          (p.estimated_duration : ℚ) * ((td : ℚ) / (te : ℚ))).sum := by
        refine congrArg List.sum (List.map_congr_left fun p _ => ?_)
        rw [mul_div_assoc]
    _ = (phases.map fun p => (p.estimated_duration : ℚ)).sum *
          ((td : ℚ) / (te : ℚ)) := List.sum_map_mul_right _ _ _
    _ = (te : ℚ) * ((td : ℚ) / (te : ℚ)) := by
        rw [hte, Nat.cast_list_sum, List.map_map]
        rfl
    _ = (td : ℚ) := by
        rw [mul_comm, div_mul_cancel₀ _ (ne_of_gt hte0)]

/-- Claim C10: in the sequence planner, each phase's duration is recomputed as
its base duration times (question count / 3), times 1.3 when the adjusted
difficulty is hard and 0.8 when easy, truncated to whole minutes and floored
at 3; then the phases are rescaled if and only if their total exceeds the
budget, every duration being multiplied by the single ratio
`total_duration / total_estimated` and re-floored at 3; and whenever that
re-flooring never fires, the rescaled total respects the budget — so only the
3-minute floor can push the final total over it. -/
theorem sequence_planner_duration_rules :
    (∀ (b c : ℕ) (d : String),
      adjust_duration_for_phase b c d =
        max (Int.toNat ⌊(b : ℚ) * ((c : ℚ) / 3) *
          (if d = "hard" then 13/10 else if d = "easy" then 4/5 else 1)⌋) 3) ∧
    (∀ (phases : List InterviewPhase) (td : ℕ),
      (phases.map fun p => p.estimated_duration).sum ≤ td →
      adjust_duration phases td = phases) ∧
    (∀ (phases : List InterviewPhase) (td : ℕ),
      td < (phases.map fun p => p.estimated_duration).sum →
      adjust_duration phases td = phases.map fun p =>
        { p with
          estimated_duration :=
            max (Int.toNat ⌊(p.estimated_duration : ℚ) * td /
              ((((phases.map fun p => p.estimated_duration).sum : ℕ)) : ℚ)⌋)
              3 }) ∧
    (∀ (phases : List InterviewPhase) (td : ℕ),
      td < (phases.map fun p => p.estimated_duration).sum →
      (∀ p ∈ phases, 3 ≤ ⌊(p.estimated_duration : ℚ) * td /
        ((((phases.map fun p => p.estimated_duration).sum : ℕ)) : ℚ)⌋) →
      ((adjust_duration phases td).map fun p => p.estimated_duration).sum ≤
        td) := by
  refine ⟨?_, ?_, ?_, ?_⟩
  · intro b c d
    rw [adjust_duration_for_phase]
    by_cases h1 : d = "hard"
    · subst h1
      simp only [String.reduceEq, reduceIte]
    · by_cases h2 : d = "easy"
      · subst h2
        simp only [String.reduceEq, reduceIte]
      · simp only [if_neg h1, if_neg h2, mul_one]
  · intro phases td h
    rw [adjust_duration, if_pos h]
  · intro phases td h
    rw [adjust_duration, if_neg (by omega)]
  · intro phases td h hfl
    rw [adjust_duration, if_neg (by omega), List.map_map]
    exact scaled_sum_le phases td h hfl

/-- Concrete instance of `sequence_planner_duration_rules`: two phases of 20
and 40 estimated minutes against a 30-minute budget rescale without hitting
the 3-minute floor, and the rescaled total meets the budget. -/
theorem sequence_planner_duration_rules_witness :
    ((adjust_duration
      [{ phase_name := "a", phase_order := 1, description := ""
         estimated_duration := 20, question_count := 3
         difficulty_level := "medium" },
       { phase_name := "b", phase_order := 2, description := ""
         estimated_duration := 40, question_count := 3
         difficulty_level := "medium" }]
      30).map fun p => p.estimated_duration).sum ≤ 30 := by
  refine sequence_planner_duration_rules.2.2.2 _ 30 (by norm_num) ?_
  intro p hp
  fin_cases hp <;>
    norm_num [List.map_cons, List.map_nil, List.sum_cons, List.sum_nil]

end IntervueBot
